import Mathlib

/-!
Verification development for the Ameena AI study-assistant client
(quiz session manager and dashboard aggregation).

The definitions below are a shallow embedding of the TypeScript sources:
  - src/pages/QuizPage.tsx   (loadQuestions, handleSubmitQuiz, the countdown
    timer effect, handleAnswerChange, the results view percentage)
  - src/pages/DashboardPage.tsx (getAverageQuizScore)
together with the Content Store operations addQuizResult and
getQuizzesForContent, which are modelled from the specification because the
context provider file is not among the provided sources.

Modelling conventions: JavaScript string records are association lists where
a fresh binding is consed in front and lookup returns the first match; the
possibly-absent TypeScript values are Option; asynchronous gateway calls are
passed in as Except-valued results; JavaScript numbers used for score
arithmetic are Nat or Int, and the dashboard percentage arithmetic is
modelled in exact rational arithmetic (Rat) with round-half-up to one
decimal standing for toFixed(1); Math.random id generation is modelled by a
supplied stream of generated ids (a function from a draw index to a string).
-/

namespace AmeenaAI

/-- Question type tag: a quiz question is multiple choice or short answer. -/
inductive QuestionType where
  | mcq
  | short_answer
  deriving DecidableEq, Repr

/-- A quiz question, as in src/types (QuizQuestion).  The gateway may return
an empty id (missing id is modelled as the empty string, the falsy value the
source tests with the or-else idiom); userAnswer and isCorrect are filled in
by grading — before grading userAnswer is none and isCorrect is the falsy
default. -/
structure QuizQuestion where
  id : String
  questionText : String
  qtype : QuestionType
  options : Option (List String) := none
  correctAnswer : Option String := none
  userAnswer : Option String := none
  isCorrect : Bool := false
  deriving DecidableEq, Repr

/-- AI feedback payload, as in src/types (AiGeneratedFeedback). -/
structure AiGeneratedFeedback where
  text : String
  deriving DecidableEq, Repr

/-- A persisted quiz result, as in src/types (Quiz).  score is Option Nat
because the dashboard defensively checks that the stored score is a number
before counting it. -/
structure Quiz where
  id : String
  contentId : String
  questions : List QuizQuestion
  score : Option Nat
  timestamp : String
  durationSeconds : Int
  deriving DecidableEq, Repr

/-- A study material, reduced to the fields the quiz and dashboard logic
read (src/types StudyMaterial).  extractedText is none when processing never
completed; the source also treats the empty string as absent. -/
structure StudyMaterial where
  id : String
  title : String
  subject : String := ""
  topic : String := ""
  extractedText : Option String := none
  uploadDate : String := ""
  deriving DecidableEq, Repr

/-- The four states of the quiz session state machine in QuizPage. -/
inductive QuizState where
  | loading
  | taking
  | submitting
  | results
  deriving DecidableEq, Repr

/-- The component state of QuizPage relevant to the session: the question
list, the answers record, the remaining seconds, the state-machine state,
the score, the feedback and the error banner. -/
structure QuizSession where
  questions : List QuizQuestion
  userAnswers : List (String × String)
  timeLeft : Nat
  quizState : QuizState
  score : Nat
  feedback : Option AiGeneratedFeedback := none
  error : Option String := none
  deriving DecidableEq, Repr

/-- The Content Store's quiz history: the ordered sequence of persisted
(contentId, quiz) pairs, in insertion order. -/
abbrev QuizStore := List (String × Quiz)

/-- Modelled from the spec: the Content Store operation addQuizResult
(its provider, UploadedContentContext, is not among the provided sources).
Per section 4.1 it appends a Quiz to the history associated with contentId,
tolerating orphaned results. -/
def addQuizResult (contentId : String) (quiz : Quiz) (store : QuizStore) :
    QuizStore :=
  store ++ [(contentId, quiz)]

/-- Modelled from the spec: the Content Store operation getQuizzesForContent
(its provider, UploadedContentContext, is not among the provided sources).
Per section 4.1 it returns the ordered sequence of Quiz records for the
content id, empty if none. -/
def getQuizzesForContent (contentId : String) (store : QuizStore) :
    List Quiz :=
  (store.filter (fun p => p.1 = contentId)).map (fun p => p.2)

/-- ASCII whitespace, the character class relevant to the trimming the
grading applies (the JavaScript trim also strips rarer Unicode whitespace,
which this embedding does not model). -/
def isJsWhitespace (c : Char) : Bool :=
  c = ' ' || c = '\t' || c = '\n' || c = '\r'

/-- The JavaScript string trim used by the grading: whitespace is removed
from both ends and the interior is untouched. -/
def trimStr (s : String) : String :=
  ⟨((s.data.dropWhile isJsWhitespace).reverse.dropWhile isJsWhitespace).reverse⟩

/-- The JavaScript toLowerCase used by the grading, on the ASCII letters the
embedding models: every character is lower-cased. -/
def toLowerStr (s : String) : String :=
  ⟨s.data.map Char.toLower⟩

/-- Property lookup on the userAnswers record: first binding wins, which
together with consing fresh bindings in front models the object spread
update of handleAnswerChange. -/
def lookupAnswer : List (String × String) → String → Option String
  | [], _ => none
  | (k, v) :: rest, key => if k = key then some v else lookupAnswer rest key

/-- handleAnswerChange (QuizPage.tsx line 155): records answer for
questionId by object spread, overwriting any prior binding for the same id
and leaving every other id bound as before. -/
def handleAnswerChange (questionId answer : String) (s : QuizSession) :
    QuizSession :=
  { s with userAnswers := (questionId, answer) :: s.userAnswers }

/-- The grading of one question inside handleSubmitQuiz (QuizPage.tsx lines
101-110): the recorded answer is trimmed and lower-cased and compared for
exact equality with the trimmed, lower-cased correct answer; the comparison
is false when the question was not answered or the correct answer is not a
string.  The question is returned annotated with userAnswer and isCorrect. -/
def gradeQuestion (userAnswers : List (String × String)) (q : QuizQuestion) :
    QuizQuestion :=
  let userAnswer := lookupAnswer userAnswers q.id
  let userAnswerProcessed := userAnswer.map (fun a => toLowerStr (trimStr a))
  let isCorrect :=
    match q.correctAnswer with
    | some ca => userAnswerProcessed = some (toLowerStr (trimStr ca))
    | none => false
  { q with userAnswer := userAnswer, isCorrect := isCorrect }

/-- handleSubmitQuiz (QuizPage.tsx lines 94-133).  The idempotent guard
returns the state unchanged while already submitting or in results;
otherwise every question is graded, the score is the count of questions
judged correct, a Quiz record is persisted through addQuizResult when a
content id is present, the feedback outcome (passed in as the result of the
asynchronous gateway call) is stored with the static fallback text on
failure, and the session ends in the results state.  D is the configured
total duration constant; quizId and timestamp stand for the generated
record id and ISO timestamp. -/
def handleSubmitQuiz (D : Nat) (contentId : Option String)
    (quizId timestamp : String)
    (feedbackResult : Except Unit AiGeneratedFeedback)
    (s : QuizSession) (store : QuizStore) : QuizSession × QuizStore :=
  if s.quizState = QuizState.submitting ∨ s.quizState = QuizState.results then
    (s, store)
  else
    let answeredQuestions := s.questions.map (gradeQuestion s.userAnswers)
    let calculatedScore := answeredQuestions.countP (fun q => q.isCorrect)
    let store1 :=
      match contentId with
      | some cid =>
          addQuizResult cid
            { id := quizId, contentId := cid, questions := answeredQuestions,
              score := some calculatedScore, timestamp := timestamp,
              durationSeconds := (D : Int) - (s.timeLeft : Int) } store
      | none => store
    let fb :=
      match feedbackResult with
      | Except.ok f => f
      | Except.error _ => { text := "Could not generate AI feedback." }
    ({ s with questions := answeredQuestions, score := calculatedScore,
              feedback := some fb, quizState := QuizState.results }, store1)

/-- Id assignment on a successful load (QuizPage.tsx line 84): a question
keeps its gateway-supplied id when that id is truthy (non-empty), otherwise
it receives the next generated id from the stream; the draw index advances
only when an id is generated, mirroring the short-circuit of the or-else
idiom around the Math.random call. -/
def assignIds (generated : Nat → String) : Nat → List QuizQuestion →
    List QuizQuestion
  | _, [] => []
  | n, q :: rest =>
    if q.id = "" then
      { q with id := generated n } :: assignIds generated (n + 1) rest
    else
      q :: assignIds generated n rest

/-- loadQuestions (QuizPage.tsx lines 70-92).  With absent or empty
extracted text the session goes straight to results with an error message;
with a failed gateway call, or a gateway result of zero questions, likewise;
on success the questions receive generated ids where missing, the error is
cleared, the timer is reset to the configured duration D and the state
becomes taking.  The gateway outcome is passed in as an Except value and
Math.random id generation as the generated stream. -/
def loadQuestions (D : Nat) (material : Option StudyMaterial)
    (gatewayResult : Except Unit (List QuizQuestion))
    (generated : Nat → String) (s : QuizSession) : QuizSession :=
  match material with
  | none =>
      { s with error := some "Content not found or empty. Cannot generate quiz.",
               quizState := QuizState.results }
  | some m =>
    match m.extractedText with
    | none =>
        { s with error := some "Content not found or empty. Cannot generate quiz.",
                 quizState := QuizState.results }
    | some txt =>
      if txt = "" then
        { s with error := some "Content not found or empty. Cannot generate quiz.",
                 quizState := QuizState.results }
      else
        match gatewayResult with
        | Except.error _ =>
            { s with error := some "Failed to load quiz. Check connection or API key.",
                     quizState := QuizState.results }
        | Except.ok generatedQuestions =>
          if generatedQuestions.length = 0 then
            { s with error := some "Could not generate quiz. Content might be too short or AI service unavailable.",
                     quizState := QuizState.results }
          else
            { s with questions := assignIds generated 0 generatedQuestions,
                     quizState := QuizState.taking,
                     timeLeft := D,
                     error := none }

/-- One execution of the countdown timer effect (QuizPage.tsx lines
144-153): while taking with time remaining, the scheduled timeout
decrements the remaining time by one; when the remaining time has reached
zero while taking, the effect calls handleSubmitQuiz.  A tick is one
decrement, immediately followed by the submission the re-run effect
triggers when the decrement reached zero. -/
def timerTick (D : Nat) (contentId : Option String)
    (quizId timestamp : String)
    (feedbackResult : Except Unit AiGeneratedFeedback) :
    QuizSession × QuizStore → QuizSession × QuizStore
  | (s, store) =>
    if s.quizState = QuizState.taking ∧ 0 < s.timeLeft then
      if s.timeLeft - 1 = 0 then
        handleSubmitQuiz D contentId quizId timestamp feedbackResult
          { s with timeLeft := s.timeLeft - 1 } store
      else
        ({ s with timeLeft := s.timeLeft - 1 }, store)
    else if s.quizState = QuizState.taking ∧ s.timeLeft = 0 then
      handleSubmitQuiz D contentId quizId timestamp feedbackResult s store
    else
      (s, store)

/-- The results view percentage (QuizPage.tsx line 164): score over the
question count as a percentage when there is at least one question, zero
otherwise, in exact rational arithmetic. -/
def resultsPercentage (s : QuizSession) : Rat :=
  if 0 < s.questions.length then
    (s.score : Rat) / (s.questions.length : Rat) * 100
  else 0

/-- Round-half-up to one decimal place, the exact-arithmetic counterpart of
the toFixed(1)-then-parseFloat step for the nonnegative values the dashboard
produces. -/
def roundTo1 (x : Rat) : Rat := (⌊x * 10 + 1 / 2⌋ : Rat) / 10

/-- The body of the inner quiz loop of getAverageQuizScore (DashboardPage
lines 20-25): a quiz whose score is a number and whose question list is
non-empty contributes its score and its question count to the running
totals, any other quiz is skipped. -/
def scoreStep (acc : Nat × Nat) (quiz : Quiz) : Nat × Nat :=
  match quiz.score with
  | some sc =>
      if 0 < quiz.questions.length then
        (acc.1 + sc, acc.2 + quiz.questions.length)
      else acc
  | none => acc

/-- The body of the outer material loop of getAverageQuizScore (DashboardPage
lines 18-26): fold the quiz loop over the stored quizzes of one material. -/
def materialStep (store : QuizStore) (acc : Nat × Nat)
    (material : StudyMaterial) : Nat × Nat :=
  (getQuizzesForContent material.id store).foldl scoreStep acc

/-- getAverageQuizScore (DashboardPage.tsx lines 15-29): accumulate, over
every material and every stored quiz for it whose score is a number and
whose question list is non-empty, the total score and the total question
count; return zero when no questions were counted, otherwise the percentage
rounded to one decimal place. -/
def getAverageQuizScore (studyMaterials : List StudyMaterial)
    (store : QuizStore) : Rat :=
  let totals := studyMaterials.foldl (materialStep store) (0, 0)
  if totals.2 = 0 then 0
  else roundTo1 ((totals.1 : Rat) / (totals.2 : Rat) * 100)

/-- The spec's side condition on a stored quiz counted by the dashboard
aggregate: a numeric score and at least one question. -/
def countedP (q : Quiz) : Bool :=
  q.score.isSome && decide (0 < q.questions.length)

/-- The spec's sum of scores over the counted quizzes of a list. -/
def sumScores (l : List Quiz) : Nat :=
  ((l.filter countedP).map (fun q => q.score.getD 0)).sum

/-- The spec's sum of question counts over the counted quizzes of a list. -/
def sumCounts (l : List Quiz) : Nat :=
  ((l.filter countedP).map (fun q => q.questions.length)).sum

/-- All stored quizzes, over every listed material, in order. -/
def quizzesOf (studyMaterials : List StudyMaterial) (store : QuizStore) :
    List Quiz :=
  (studyMaterials.map (fun m => getQuizzesForContent m.id store)).flatten

/-- Written from the spec's words for the refinement comparison of the
dashboard aggregate: the sum of scores over all stored quizzes with numeric
score and at least one question, divided by the sum of their question
counts, expressed as a percentage rounded to one decimal place, and zero
when no counted questions exist. -/
def averageScoreSpec (studyMaterials : List StudyMaterial)
    (store : QuizStore) : Rat :=
  if sumCounts (quizzesOf studyMaterials store) = 0 then 0
  else
    roundTo1 ((sumScores (quizzesOf studyMaterials store) : Rat) /
      (sumCounts (quizzesOf studyMaterials store) : Rat) * 100)

/-- The graded question list a submission produces from a session. -/
def gradedQuestions (s : QuizSession) : List QuizQuestion :=
  s.questions.map (gradeQuestion s.userAnswers)

/-- The feedback stored for a gateway outcome: the produced text on success
and the static fallback on failure. -/
def feedbackOf (feedbackResult : Except Unit AiGeneratedFeedback) :
    AiGeneratedFeedback :=
  match feedbackResult with
  | Except.ok f => f
  | Except.error _ => { text := "Could not generate AI feedback." }

/-- The Quiz record a submission constructs and persists. -/
def submittedQuiz (D : Nat) (cid quizId timestamp : String)
    (s : QuizSession) : Quiz :=
  { id := quizId, contentId := cid, questions := gradedQuestions s,
    score := some ((gradedQuestions s).countP (fun q => q.isCorrect)),
    timestamp := timestamp,
    durationSeconds := (D : Int) - (s.timeLeft : Int) }

theorem handleSubmitQuiz_guarded (D : Nat) (cid : Option String)
    (quizId timestamp : String) (fb : Except Unit AiGeneratedFeedback)
    (s : QuizSession) (store : QuizStore)
    (h : s.quizState = QuizState.submitting ∨ s.quizState = QuizState.results) :
    handleSubmitQuiz D cid quizId timestamp fb s store = (s, store) := by
  rw [handleSubmitQuiz.eq_def, if_pos h]

theorem handleSubmitQuiz_run (D : Nat) (cid : Option String)
    (quizId timestamp : String) (fb : Except Unit AiGeneratedFeedback)
    (s : QuizSession) (store : QuizStore)
    (h1 : s.quizState ≠ QuizState.submitting)
    (h2 : s.quizState ≠ QuizState.results) :
    handleSubmitQuiz D cid quizId timestamp fb s store =
      ({ s with questions := gradedQuestions s,
                score := (gradedQuestions s).countP (fun q => q.isCorrect),
                feedback := some (feedbackOf fb),
                quizState := QuizState.results },
       match cid with
       | some c => addQuizResult c (submittedQuiz D c quizId timestamp s) store
       | none => store) := by
  have hguard :
      ¬ (s.quizState = QuizState.submitting ∨ s.quizState = QuizState.results) := by
    rintro (h | h)
    · exact h1 h
    · exact h2 h
  rw [handleSubmitQuiz.eq_def, if_neg hguard]
  rfl

/-- Claim C7: recording an answer for a question id overwrites any prior
answer for that id (last-write-wins) and leaves the recorded answer for
every other question id unchanged; answers are keyed by question id. -/
theorem handleAnswerChange_last_write_wins (s : QuizSession)
    (questionId answer : String) :
    lookupAnswer (handleAnswerChange questionId answer s).userAnswers
        questionId = some answer
    ∧ ∀ other, other ≠ questionId →
        lookupAnswer (handleAnswerChange questionId answer s).userAnswers
            other = lookupAnswer s.userAnswers other := by
  constructor
  · simp [handleAnswerChange, lookupAnswer]
  · intro other hne
    simp [handleAnswerChange, lookupAnswer, Ne.symm hne]

theorem handleAnswerChange_last_write_wins_witness :
    lookupAnswer
        (handleAnswerChange "q1" "b"
          { questions := [], userAnswers := [("q1", "a"), ("q2", "c")],
            timeLeft := 300, quizState := QuizState.taking,
            score := 0 }).userAnswers "q1" = some "b"
    ∧ lookupAnswer
        (handleAnswerChange "q1" "b"
          { questions := [], userAnswers := [("q1", "a"), ("q2", "c")],
            timeLeft := 300, quizState := QuizState.taking,
            score := 0 }).userAnswers "q2" =
        lookupAnswer [("q1", "a"), ("q2", "c")] "q2" := by
  have h := handleAnswerChange_last_write_wins
    { questions := [], userAnswers := [("q1", "a"), ("q2", "c")],
      timeLeft := 300, quizState := QuizState.taking, score := 0 } "q1" "b"
  exact ⟨h.1, h.2 "q2" (by decide)⟩

/-- Claim C1: submitQuiz is a no-op (no grading, no state change, no
persisted record) while the session is already submitting or in results, so
two submission triggers in succession — the first from a submittable state —
leave the session as after the first and persist exactly one Quiz record
for the session's content id. -/
theorem submitQuiz_idempotent (D : Nat) (cid quizId1 timestamp1 : String)
    (quizId2 timestamp2 : String)
    (fb1 fb2 : Except Unit AiGeneratedFeedback)
    (s : QuizSession) (store : QuizStore) :
    ((s.quizState = QuizState.submitting ∨ s.quizState = QuizState.results) →
      ∀ cid0 quizId0 timestamp0 fb0,
        handleSubmitQuiz D cid0 quizId0 timestamp0 fb0 s store = (s, store))
    ∧ (s.quizState ≠ QuizState.submitting → s.quizState ≠ QuizState.results →
        handleSubmitQuiz D (some cid) quizId2 timestamp2 fb2
            (handleSubmitQuiz D (some cid) quizId1 timestamp1 fb1 s store).1
            (handleSubmitQuiz D (some cid) quizId1 timestamp1 fb1 s store).2 =
          handleSubmitQuiz D (some cid) quizId1 timestamp1 fb1 s store
        ∧ (getQuizzesForContent cid
              (handleSubmitQuiz D (some cid) quizId1 timestamp1 fb1 s
                store).2).length =
            (getQuizzesForContent cid store).length + 1) := by
  constructor
  · intro h cid0 quizId0 timestamp0 fb0
    exact handleSubmitQuiz_guarded D cid0 quizId0 timestamp0 fb0 s store h
  · intro h1 h2
    rw [handleSubmitQuiz_run D (some cid) quizId1 timestamp1 fb1 s store h1 h2]
    refine ⟨?_, ?_⟩
    · exact handleSubmitQuiz_guarded D (some cid) quizId2 timestamp2 fb2 _ _
        (Or.inr rfl)
    · simp [getQuizzesForContent, addQuizResult, List.filter_append]

theorem submitQuiz_idempotent_witness :
    (handleSubmitQuiz 300 (some "c1") "quiz_2" "t2" (Except.ok { text := "f" })
        (handleSubmitQuiz 300 (some "c1") "quiz_1" "t1"
          (Except.ok { text := "f" })
          { questions := [], userAnswers := [], timeLeft := 100,
            quizState := QuizState.taking, score := 0 } []).1
        (handleSubmitQuiz 300 (some "c1") "quiz_1" "t1"
          (Except.ok { text := "f" })
          { questions := [], userAnswers := [], timeLeft := 100,
            quizState := QuizState.taking, score := 0 } []).2 =
      handleSubmitQuiz 300 (some "c1") "quiz_1" "t1" (Except.ok { text := "f" })
        { questions := [], userAnswers := [], timeLeft := 100,
          quizState := QuizState.taking, score := 0 } [])
    ∧ (getQuizzesForContent "c1"
          (handleSubmitQuiz 300 (some "c1") "quiz_1" "t1"
            (Except.ok { text := "f" })
            { questions := [], userAnswers := [], timeLeft := 100,
              quizState := QuizState.taking, score := 0 } []).2).length =
        (getQuizzesForContent "c1" ([] : QuizStore)).length + 1 :=
  (submitQuiz_idempotent 300 "c1" "quiz_1" "t1" "quiz_2" "t2"
    (Except.ok { text := "f" }) (Except.ok { text := "f" })
    { questions := [], userAnswers := [], timeLeft := 100,
      quizState := QuizState.taking, score := 0 } []).2
    (by decide) (by decide)

/-- Claim C5: from a submittable session, a failed AI-feedback call leaves
the computed score, the graded questions and the persisted store exactly as
a successful call would; the failure is replaced by the static fallback
feedback text, and the session ends in results either way. -/
theorem feedback_failure_harmless (D : Nat) (cid : Option String)
    (quizId timestamp : String) (f : AiGeneratedFeedback)
    (s : QuizSession) (store : QuizStore)
    (h : s.quizState = QuizState.taking) :
    (handleSubmitQuiz D cid quizId timestamp (Except.ok f) s store).2 =
      (handleSubmitQuiz D cid quizId timestamp (Except.error ()) s store).2
    ∧ (handleSubmitQuiz D cid quizId timestamp (Except.ok f) s store).1.score =
      (handleSubmitQuiz D cid quizId timestamp (Except.error ()) s
          store).1.score
    ∧ (handleSubmitQuiz D cid quizId timestamp (Except.ok f) s
          store).1.questions =
      (handleSubmitQuiz D cid quizId timestamp (Except.error ()) s
          store).1.questions
    ∧ (handleSubmitQuiz D cid quizId timestamp (Except.ok f) s
          store).1.quizState = QuizState.results
    ∧ (handleSubmitQuiz D cid quizId timestamp (Except.error ()) s
          store).1.quizState = QuizState.results
    ∧ (handleSubmitQuiz D cid quizId timestamp (Except.error ()) s
          store).1.feedback =
        some { text := "Could not generate AI feedback." }
    ∧ (handleSubmitQuiz D cid quizId timestamp (Except.ok f) s
          store).1.feedback = some f := by
  have h1 : s.quizState ≠ QuizState.submitting := by rw [h]; intro hc; cases hc
  have h2 : s.quizState ≠ QuizState.results := by rw [h]; intro hc; cases hc
  rw [handleSubmitQuiz_run D cid quizId timestamp (Except.ok f) s store h1 h2,
      handleSubmitQuiz_run D cid quizId timestamp (Except.error ()) s store h1
        h2]
  refine ⟨rfl, rfl, rfl, rfl, rfl, rfl, rfl⟩

theorem feedback_failure_harmless_witness :
    (handleSubmitQuiz 300 (some "c1") "quiz_1" "t1"
        (Except.ok { text := "nice" })
        { questions := [], userAnswers := [], timeLeft := 100,
          quizState := QuizState.taking, score := 0 } []).2 =
      (handleSubmitQuiz 300 (some "c1") "quiz_1" "t1" (Except.error ())
        { questions := [], userAnswers := [], timeLeft := 100,
          quizState := QuizState.taking, score := 0 } []).2
    ∧ (handleSubmitQuiz 300 (some "c1") "quiz_1" "t1"
        (Except.ok { text := "nice" })
        { questions := [], userAnswers := [], timeLeft := 100,
          quizState := QuizState.taking, score := 0 } []).1.score =
      (handleSubmitQuiz 300 (some "c1") "quiz_1" "t1" (Except.error ())
        { questions := [], userAnswers := [], timeLeft := 100,
          quizState := QuizState.taking, score := 0 } []).1.score
    ∧ (handleSubmitQuiz 300 (some "c1") "quiz_1" "t1"
        (Except.ok { text := "nice" })
        { questions := [], userAnswers := [], timeLeft := 100,
          quizState := QuizState.taking, score := 0 } []).1.questions =
      (handleSubmitQuiz 300 (some "c1") "quiz_1" "t1" (Except.error ())
        { questions := [], userAnswers := [], timeLeft := 100,
          quizState := QuizState.taking, score := 0 } []).1.questions
    ∧ (handleSubmitQuiz 300 (some "c1") "quiz_1" "t1"
        (Except.ok { text := "nice" })
        { questions := [], userAnswers := [], timeLeft := 100,
          quizState := QuizState.taking, score := 0 } []).1.quizState =
        QuizState.results
    ∧ (handleSubmitQuiz 300 (some "c1") "quiz_1" "t1" (Except.error ())
        { questions := [], userAnswers := [], timeLeft := 100,
          quizState := QuizState.taking, score := 0 } []).1.quizState =
        QuizState.results
    ∧ (handleSubmitQuiz 300 (some "c1") "quiz_1" "t1" (Except.error ())
        { questions := [], userAnswers := [], timeLeft := 100,
          quizState := QuizState.taking, score := 0 } []).1.feedback =
        some { text := "Could not generate AI feedback." }
    ∧ (handleSubmitQuiz 300 (some "c1") "quiz_1" "t1"
        (Except.ok { text := "nice" })
        { questions := [], userAnswers := [], timeLeft := 100,
          quizState := QuizState.taking, score := 0 } []).1.feedback =
        some { text := "nice" } :=
  feedback_failure_harmless 300 (some "c1") "quiz_1" "t1" { text := "nice" }
    { questions := [], userAnswers := [], timeLeft := 100,
      quizState := QuizState.taking, score := 0 } [] (by decide)

/-- A concrete short-answer question used by witnesses. -/
def parisQuestion : QuizQuestion :=
  { id := "q1", questionText := "Capital of France?",
    qtype := QuestionType.short_answer, correctAnswer := some "Paris" }

/-- A concrete in-progress session used by witnesses: one question,
answered with extra whitespace and capitals, one hundred seconds left. -/
def parisSession : QuizSession :=
  { questions := [parisQuestion], userAnswers := [("q1", "  paris ")],
    timeLeft := 100, quizState := QuizState.taking, score := 0 }

/-- Claim C2: a graded question is marked correct exactly when the user's
answer, trimmed and lower-cased, equals the correct answer trimmed and
lower-cased, and the session score of a submission is the count of
questions so judged correct. -/
theorem grading_rule (answers : List (String × String)) (q : QuizQuestion)
    (ca ua : String) (hca : q.correctAnswer = some ca)
    (hua : lookupAnswer answers q.id = some ua) :
    ((gradeQuestion answers q).isCorrect = true ↔
      toLowerStr (trimStr ua) = toLowerStr (trimStr ca))
    ∧ ∀ (D : Nat) (cid : Option String) (quizId timestamp : String)
        (fb : Except Unit AiGeneratedFeedback) (s : QuizSession)
        (store : QuizStore), s.quizState = QuizState.taking →
        (handleSubmitQuiz D cid quizId timestamp fb s store).1.score =
          (s.questions.map (gradeQuestion s.userAnswers)).countP
            (fun r => r.isCorrect) := by
  constructor
  · simp [gradeQuestion, hca, hua]
  · intro D cid quizId timestamp fb s store h
    have h1 : s.quizState ≠ QuizState.submitting := by
      rw [h]; intro hc; cases hc
    have h2 : s.quizState ≠ QuizState.results := by
      rw [h]; intro hc; cases hc
    rw [handleSubmitQuiz_run D cid quizId timestamp fb s store h1 h2]
    rfl

theorem grading_rule_witness :
    ((gradeQuestion [("q1", "  paris ")] parisQuestion).isCorrect = true)
    ∧ ((gradeQuestion [("q1", "paris,")] parisQuestion).isCorrect = false) := by
  have h1 := grading_rule [("q1", "  paris ")] parisQuestion
    "Paris" "  paris " rfl (by decide)
  have h2 := grading_rule [("q1", "paris,")] parisQuestion
    "Paris" "paris," rfl (by decide)
  refine ⟨h1.1.mpr (by decide), ?_⟩
  cases hb : (gradeQuestion [("q1", "paris,")] parisQuestion).isCorrect
  · rfl
  · exact absurd (h2.1.mp hb) (by decide)

/-- Claim C6: a submission from a submittable session with a content id
persists, via addQuizResult keyed by that content id, a Quiz record holding
the computed score, the full graded question list (each question annotated
with its recorded userAnswer), and a durationSeconds equal to the
configured total duration minus the remaining time at submission. -/
theorem quiz_record_persisted (D : Nat) (cid quizId timestamp : String)
    (fb : Except Unit AiGeneratedFeedback) (s : QuizSession)
    (store : QuizStore) (h : s.quizState = QuizState.taking) :
    (handleSubmitQuiz D (some cid) quizId timestamp fb s store).2 =
      addQuizResult cid
        { id := quizId, contentId := cid,
          questions := s.questions.map (gradeQuestion s.userAnswers),
          score := some ((s.questions.map
            (gradeQuestion s.userAnswers)).countP (fun r => r.isCorrect)),
          timestamp := timestamp,
          durationSeconds := (D : Int) - (s.timeLeft : Int) } store
    ∧ (handleSubmitQuiz D (some cid) quizId timestamp fb s store).1.score =
        (s.questions.map (gradeQuestion s.userAnswers)).countP
          (fun r => r.isCorrect)
    ∧ (∀ q ∈ s.questions,
        (gradeQuestion s.userAnswers q).userAnswer =
          lookupAnswer s.userAnswers q.id)
    ∧ getQuizzesForContent cid
        (handleSubmitQuiz D (some cid) quizId timestamp fb s store).2 =
      getQuizzesForContent cid store ++
        [{ id := quizId, contentId := cid,
           questions := s.questions.map (gradeQuestion s.userAnswers),
           score := some ((s.questions.map
             (gradeQuestion s.userAnswers)).countP (fun r => r.isCorrect)),
           timestamp := timestamp,
           durationSeconds := (D : Int) - (s.timeLeft : Int) }] := by
  have h1 : s.quizState ≠ QuizState.submitting := by rw [h]; intro hc; cases hc
  have h2 : s.quizState ≠ QuizState.results := by rw [h]; intro hc; cases hc
  rw [handleSubmitQuiz_run D (some cid) quizId timestamp fb s store h1 h2]
  refine ⟨rfl, rfl, fun q _ => rfl, ?_⟩
  simp [getQuizzesForContent, addQuizResult, List.filter_append,
    gradedQuestions, submittedQuiz]

theorem quiz_record_persisted_witness :
    (handleSubmitQuiz 300 (some "c1") "quiz_1" "t1" (Except.error ())
        parisSession []).2 =
      addQuizResult "c1"
        { id := "quiz_1", contentId := "c1",
          questions := parisSession.questions.map
            (gradeQuestion parisSession.userAnswers),
          score := some ((parisSession.questions.map
            (gradeQuestion parisSession.userAnswers)).countP
              (fun r => r.isCorrect)),
          timestamp := "t1",
          durationSeconds := (300 : Int) - (parisSession.timeLeft : Int) } []
    ∧ (handleSubmitQuiz 300 (some "c1") "quiz_1" "t1" (Except.error ())
        parisSession []).1.score =
      (parisSession.questions.map
        (gradeQuestion parisSession.userAnswers)).countP
          (fun r => r.isCorrect) := by
  have h := quiz_record_persisted 300 "c1" "quiz_1" "t1" (Except.error ())
    parisSession [] (by decide)
  exact ⟨h.1, h.2.1⟩

theorem gradeQuestion_no_answers (q : QuizQuestion) :
    gradeQuestion [] q = { q with userAnswer := none, isCorrect := false } := by
  unfold gradeQuestion
  cases q.correctAnswer <;> simp [lookupAnswer]

theorem timerTick_decrement (D : Nat) (cid : Option String)
    (quizId timestamp : String) (fb : Except Unit AiGeneratedFeedback)
    (s : QuizSession) (store : QuizStore)
    (h : s.quizState = QuizState.taking) (ht : 1 < s.timeLeft) :
    timerTick D cid quizId timestamp fb (s, store) =
      ({ s with timeLeft := s.timeLeft - 1 }, store) := by
  rw [timerTick]
  rw [if_pos ⟨h, by omega⟩, if_neg (by omega)]

theorem timerTick_countdown (D : Nat) (cid : Option String)
    (quizId timestamp : String) (fb : Except Unit AiGeneratedFeedback) :
    ∀ (n : Nat) (s : QuizSession) (store : QuizStore),
      s.quizState = QuizState.taking → s.timeLeft = n + 1 →
      (timerTick D cid quizId timestamp fb)^[n + 1] (s, store) =
        handleSubmitQuiz D cid quizId timestamp fb
          { s with timeLeft := 0 } store := by
  intro n
  induction n with
  | zero =>
    intro s store hq ht
    rw [Function.iterate_one, timerTick]
    rw [if_pos ⟨hq, by omega⟩, if_pos (by simp [ht])]
    rw [ht]
  | succ k ih =>
    intro s store hq ht
    rw [Function.iterate_succ_apply, timerTick]
    rw [if_pos ⟨hq, by omega⟩, if_neg (by simp [ht])]
    have h2 := ih { s with timeLeft := s.timeLeft - 1 } store hq (by simp [ht])
    rw [h2]

/-- Claim C3: while taking, a tick decrements the countdown by one; when
the remaining time reaches zero the submission is triggered exactly as a
manual submission would be, so a session started with duration D and never
answered is, after D ticks, in results with every question unanswered and
marked incorrect and a score of zero. -/
theorem timer_expiry (D : Nat) (cid : Option String)
    (quizId timestamp : String) (fb : Except Unit AiGeneratedFeedback)
    (s : QuizSession) (store : QuizStore)
    (htak : s.quizState = QuizState.taking) (htime : s.timeLeft = D)
    (hpos : 0 < D) (hans : s.userAnswers = []) :
    (∀ (s2 : QuizSession) (store2 : QuizStore),
        s2.quizState = QuizState.taking → 1 < s2.timeLeft →
        timerTick D cid quizId timestamp fb (s2, store2) =
          ({ s2 with timeLeft := s2.timeLeft - 1 }, store2))
    ∧ (timerTick D cid quizId timestamp fb)^[D] (s, store) =
        handleSubmitQuiz D cid quizId timestamp fb
          { s with timeLeft := 0 } store
    ∧ ((timerTick D cid quizId timestamp fb)^[D] (s, store)).1.quizState =
        QuizState.results
    ∧ ((timerTick D cid quizId timestamp fb)^[D] (s, store)).1.score = 0
    ∧ ∀ q ∈ ((timerTick D cid quizId timestamp fb)^[D] (s, store)).1.questions,
        q.userAnswer = none ∧ q.isCorrect = false := by
  obtain ⟨k, rfl⟩ : ∃ k, D = k + 1 := ⟨D - 1, by omega⟩
  have hiter := timerTick_countdown (k + 1) cid quizId timestamp fb k s store
    htak htime
  have h1 : ({ s with timeLeft := 0 } : QuizSession).quizState ≠
      QuizState.submitting := by simp [htak]
  have h2 : ({ s with timeLeft := 0 } : QuizSession).quizState ≠
      QuizState.results := by simp [htak]
  have hrun := handleSubmitQuiz_run (k + 1) cid quizId timestamp fb
    { s with timeLeft := 0 } store h1 h2
  refine ⟨?_, hiter, ?_, ?_, ?_⟩
  · intro s2 store2 hq ht
    exact timerTick_decrement (k + 1) cid quizId timestamp fb s2 store2 hq ht
  · rw [hiter, hrun]
  · rw [hiter, hrun]
    simp only [gradedQuestions]
    rw [List.countP_eq_zero]
    intro q hq
    simp only [List.mem_map] at hq
    obtain ⟨q0, _, rfl⟩ := hq
    simp [hans, gradeQuestion_no_answers]
  · rw [hiter, hrun]
    intro q hq
    simp only [gradedQuestions, List.mem_map] at hq
    obtain ⟨q0, _, rfl⟩ := hq
    rw [hans, gradeQuestion_no_answers]
    exact ⟨rfl, rfl⟩

theorem timer_expiry_witness :
    ((timerTick 2 (some "c1") "quiz_1" "t1" (Except.error ()))^[2]
        ({ questions := [parisQuestion], userAnswers := [], timeLeft := 2,
           quizState := QuizState.taking, score := 0 }, []) =
      handleSubmitQuiz 2 (some "c1") "quiz_1" "t1" (Except.error ())
        { questions := [parisQuestion], userAnswers := [], timeLeft := 0,
          quizState := QuizState.taking, score := 0 } [])
    ∧ ((timerTick 2 (some "c1") "quiz_1" "t1" (Except.error ()))^[2]
        ({ questions := [parisQuestion], userAnswers := [], timeLeft := 2,
           quizState := QuizState.taking, score := 0 }, [])).1.quizState =
        QuizState.results
    ∧ ((timerTick 2 (some "c1") "quiz_1" "t1" (Except.error ()))^[2]
        ({ questions := [parisQuestion], userAnswers := [], timeLeft := 2,
           quizState := QuizState.taking, score := 0 }, [])).1.score = 0 := by
  have h := timer_expiry 2 (some "c1") "quiz_1" "t1" (Except.error ())
    { questions := [parisQuestion], userAnswers := [], timeLeft := 2,
      quizState := QuizState.taking, score := 0 } [] (by decide) (by decide)
    (by decide) (by decide)
  exact ⟨h.2.1, h.2.2.1, h.2.2.2.1⟩

/-- Claim C4: loadQuestions moves the session to results with a user-facing
error message, never reaching taking, when the target material or its
extracted text is absent (or empty), when the gateway returns zero
questions, and when the gateway call raises an error. -/
theorem loadQuestions_failure_paths (D : Nat) (generated : Nat → String)
    (s : QuizSession) :
    (∀ (material : Option StudyMaterial)
        (g : Except Unit (List QuizQuestion)),
        (material = none
          ∨ ∃ m, material = some m ∧
              (m.extractedText = none ∨ m.extractedText = some "")) →
        (loadQuestions D material g generated s).quizState =
            QuizState.results
        ∧ (loadQuestions D material g generated s).error =
            some "Content not found or empty. Cannot generate quiz.")
    ∧ (∀ (m : StudyMaterial) (txt : String),
        m.extractedText = some txt → txt ≠ "" →
        (loadQuestions D (some m) (Except.error ()) generated s).quizState =
            QuizState.results
        ∧ (loadQuestions D (some m) (Except.error ()) generated s).error =
            some "Failed to load quiz. Check connection or API key.")
    ∧ (∀ (m : StudyMaterial) (txt : String),
        m.extractedText = some txt → txt ≠ "" →
        (loadQuestions D (some m) (Except.ok []) generated s).quizState =
            QuizState.results
        ∧ (loadQuestions D (some m) (Except.ok []) generated s).error =
            some "Could not generate quiz. Content might be too short or AI service unavailable.") := by
  refine ⟨?_, ?_, ?_⟩
  · rintro material g (rfl | ⟨m, rfl, hm | hm⟩)
    · exact ⟨rfl, rfl⟩
    · simp [loadQuestions, hm]
    · simp [loadQuestions, hm]
  · intro m txt hm hne
    simp [loadQuestions, hm, hne]
  · intro m txt hm hne
    simp [loadQuestions, hm, hne]

theorem loadQuestions_failure_paths_witness :
    ((loadQuestions 300 none (Except.ok [parisQuestion]) (fun _ => "gen")
        { questions := [], userAnswers := [], timeLeft := 300,
          quizState := QuizState.loading, score := 0 }).quizState =
      QuizState.results
    ∧ (loadQuestions 300 none (Except.ok [parisQuestion]) (fun _ => "gen")
        { questions := [], userAnswers := [], timeLeft := 300,
          quizState := QuizState.loading, score := 0 }).error =
      some "Content not found or empty. Cannot generate quiz.")
    ∧ ((loadQuestions 300
          (some { id := "c1", title := "m", extractedText := some "text" })
          (Except.error ()) (fun _ => "gen")
          { questions := [], userAnswers := [], timeLeft := 300,
            quizState := QuizState.loading, score := 0 }).quizState =
        QuizState.results
    ∧ (loadQuestions 300
          (some { id := "c1", title := "m", extractedText := some "text" })
          (Except.error ()) (fun _ => "gen")
          { questions := [], userAnswers := [], timeLeft := 300,
            quizState := QuizState.loading, score := 0 }).error =
        some "Failed to load quiz. Check connection or API key.")
    ∧ ((loadQuestions 300
          (some { id := "c1", title := "m", extractedText := some "text" })
          (Except.ok []) (fun _ => "gen")
          { questions := [], userAnswers := [], timeLeft := 300,
            quizState := QuizState.loading, score := 0 }).quizState =
        QuizState.results
    ∧ (loadQuestions 300
          (some { id := "c1", title := "m", extractedText := some "text" })
          (Except.ok []) (fun _ => "gen")
          { questions := [], userAnswers := [], timeLeft := 300,
            quizState := QuizState.loading, score := 0 }).error =
        some "Could not generate quiz. Content might be too short or AI service unavailable.") := by
  have h := loadQuestions_failure_paths 300 (fun _ => "gen")
    { questions := [], userAnswers := [], timeLeft := 300,
      quizState := QuizState.loading, score := 0 }
  exact ⟨h.1 none (Except.ok [parisQuestion]) (Or.inl rfl),
    h.2.1 { id := "c1", title := "m", extractedText := some "text" } "text"
      rfl (by decide),
    h.2.2 { id := "c1", title := "m", extractedText := some "text" } "text"
      rfl (by decide)⟩

theorem assignIds_mem_ids (generated : Nat → String) :
    ∀ (qs : List QuizQuestion) (n : Nat) (x : String),
      x ∈ (assignIds generated n qs).map (fun q => q.id) →
      (∃ q ∈ qs, q.id ≠ "" ∧ x = q.id)
      ∨ (∃ k, n ≤ k ∧ k < n + qs.length ∧ x = generated k) := by
  intro qs
  induction qs with
  | nil => intro n x hx; simp [assignIds] at hx
  | cons q rest ih =>
    intro n x hx
    by_cases hid : q.id = ""
    · rw [assignIds, if_pos hid] at hx
      simp only [List.map_cons, List.mem_cons] at hx
      rcases hx with rfl | hx
      · right
        exact ⟨n, le_refl n, by simp, rfl⟩
      · rcases ih (n + 1) x hx with ⟨q2, hq2, hne2, hxq⟩ | ⟨k, hk1, hk2, hxk⟩
        · exact Or.inl ⟨q2, List.mem_cons_of_mem q hq2, hne2, hxq⟩
        · right
          refine ⟨k, by omega, ?_, hxk⟩
          simp only [List.length_cons]
          omega
    · rw [assignIds, if_neg hid] at hx
      simp only [List.map_cons, List.mem_cons] at hx
      rcases hx with rfl | hx
      · exact Or.inl ⟨q, List.mem_cons_self q rest, hid, rfl⟩
      · rcases ih n x hx with ⟨q2, hq2, hne2, hxq⟩ | ⟨k, hk1, hk2, hxk⟩
        · exact Or.inl ⟨q2, List.mem_cons_of_mem q hq2, hne2, hxq⟩
        · right
          refine ⟨k, hk1, ?_, hxk⟩
          simp only [List.length_cons]
          omega

theorem assignIds_nodup (generated : Nat → String) :
    ∀ (qs : List QuizQuestion) (n : Nat),
      (∀ j, n ≤ j → j < n + qs.length → ∀ k, n ≤ k → k < n + qs.length →
        generated j = generated k → j = k) →
      (∀ k, n ≤ k → k < n + qs.length → ∀ q ∈ qs, generated k ≠ q.id) →
      (∀ k, n ≤ k → k < n + qs.length → generated k ≠ "") →
      ((qs.map (fun q => q.id)).filter (fun i => i ≠ "")).Nodup →
      ((assignIds generated n qs).map (fun q => q.id)).Nodup
      ∧ ∀ x ∈ (assignIds generated n qs).map (fun q => q.id), x ≠ "" := by
  intro qs
  induction qs with
  | nil =>
    intro n _ _ _ _
    simp [assignIds]
  | cons q rest ih =>
    intro n hgen hdisj hne hsup
    by_cases hid : q.id = ""
    · have hsup2 :
          ((rest.map (fun q => q.id)).filter (fun i => i ≠ "")).Nodup := by
        simpa [List.filter_cons, hid] using hsup
      obtain ⟨ihn, ihne⟩ := ih (n + 1)
        (fun j hj1 hj2 k hk1 hk2 heq =>
          hgen j (by omega) (by simp only [List.length_cons]; omega)
            k (by omega) (by simp only [List.length_cons]; omega) heq)
        (fun k hk1 hk2 q2 hq2 =>
          hdisj k (by omega) (by simp only [List.length_cons]; omega)
            q2 (List.mem_cons_of_mem q hq2))
        (fun k hk1 hk2 =>
          hne k (by omega) (by simp only [List.length_cons]; omega))
        hsup2
      constructor
      · rw [assignIds, if_pos hid]
        simp only [List.map_cons, List.nodup_cons]
        refine ⟨?_, ihn⟩
        intro hmem
        rcases assignIds_mem_ids generated rest (n + 1) (generated n) hmem
          with ⟨q2, hq2, hne2, heq⟩ | ⟨k, hk1, hk2, heq⟩
        · exact hdisj n (le_refl n) (by simp only [List.length_cons]; omega)
            q2 (List.mem_cons_of_mem q hq2) heq
        · have := hgen n (le_refl n)
            (by simp only [List.length_cons]; omega) k (by omega)
            (by simp only [List.length_cons]; omega) heq
          omega
      · intro x hx
        rw [assignIds, if_pos hid] at hx
        simp only [List.map_cons, List.mem_cons] at hx
        rcases hx with rfl | hx
        · exact hne n (le_refl n) (by simp only [List.length_cons]; omega)
        · exact ihne x hx
    · have hsup2 : q.id ∉
          ((rest.map (fun q => q.id)).filter (fun i => i ≠ ""))
          ∧ ((rest.map (fun q => q.id)).filter (fun i => i ≠ "")).Nodup := by
        have := hsup
        rw [List.map_cons, List.filter_cons] at this
        simp only [hid, decide_not, decide_eq_true_eq, if_pos,
          List.nodup_cons] at this
        simpa [hid] using this
      obtain ⟨ihn, ihne⟩ := ih n
        (fun j hj1 hj2 k hk1 hk2 heq =>
          hgen j (by omega) (by simp only [List.length_cons]; omega)
            k (by omega) (by simp only [List.length_cons]; omega) heq)
        (fun k hk1 hk2 q2 hq2 =>
          hdisj k (by omega) (by simp only [List.length_cons]; omega)
            q2 (List.mem_cons_of_mem q hq2))
        (fun k hk1 hk2 =>
          hne k (by omega) (by simp only [List.length_cons]; omega))
        hsup2.2
      constructor
      · rw [assignIds, if_neg hid]
        simp only [List.map_cons, List.nodup_cons]
        refine ⟨?_, ihn⟩
        intro hmem
        rcases assignIds_mem_ids generated rest n q.id hmem
          with ⟨q2, hq2, hne2, heq⟩ | ⟨k, hk1, hk2, heq⟩
        · refine hsup2.1 ?_
          rw [heq]
          rw [List.mem_filter]
          exact ⟨List.mem_map_of_mem (fun q => q.id) hq2, by
            simpa using hne2⟩
        · exact hdisj k hk1 (by simp only [List.length_cons]; omega)
            q (List.mem_cons_self q rest) heq.symm
      · intro x hx
        rw [assignIds, if_neg hid] at hx
        simp only [List.map_cons, List.mem_cons] at hx
        rcases hx with rfl | hx
        · exact hid
        · exact ihne x hx

theorem loadQuestions_success (D : Nat) (generated : Nat → String)
    (m : StudyMaterial) (txt : String) (qs : List QuizQuestion)
    (s : QuizSession) (hm : m.extractedText = some txt) (hne : txt ≠ "")
    (hqs : qs ≠ []) :
    loadQuestions D (some m) (Except.ok qs) generated s =
      { s with questions := assignIds generated 0 qs,
               quizState := QuizState.taking, timeLeft := D,
               error := none } := by
  simp [loadQuestions, hm, hne, hqs, List.length_eq_zero]

/-- A concrete mcq question whose gateway-supplied id collides with itself
when returned twice. -/
def dupIdQuestion : QuizQuestion :=
  { id := "a", questionText := "t", qtype := QuestionType.mcq,
    correctAnswer := some "x" }

/-- Counterexample to claim C8 as stated: when the gateway returns two
questions that both carry the supplied id "a", the successful load reaches
taking but the session's question ids are not pairwise distinct — the code
keeps gateway-supplied ids without any distinctness check. -/
theorem unique_ids_counterexample :
    (loadQuestions 300
        (some { id := "c1", title := "m", extractedText := some "text" })
        (Except.ok [dupIdQuestion, dupIdQuestion]) (fun _ => "gen")
        { questions := [], userAnswers := [], timeLeft := 300,
          quizState := QuizState.loading, score := 0 }).quizState =
      QuizState.taking
    ∧ ¬ (((loadQuestions 300
        (some { id := "c1", title := "m", extractedText := some "text" })
        (Except.ok [dupIdQuestion, dupIdQuestion]) (fun _ => "gen")
        { questions := [], userAnswers := [], timeLeft := 300,
          quizState := QuizState.loading, score := 0 }).questions.map
            (fun q => q.id)).Nodup) := by
  constructor
  · decide
  · decide

/-- Claim C8, amended: on a successful load of a non-empty question set,
every question whose gateway-supplied id is missing (empty) is assigned the
next generated id and the others keep their supplied ids; provided the
generated ids drawn are pairwise distinct, non-empty and distinct from
every supplied id, and the supplied non-empty ids are themselves pairwise
distinct, all question ids in the session are non-empty and pairwise
distinct; the remaining time is reset to the configured duration and the
error is cleared as the session transitions to taking. -/
theorem loadQuestions_success_amended (D : Nat) (generated : Nat → String)
    (m : StudyMaterial) (txt : String) (qs : List QuizQuestion)
    (s : QuizSession) (hm : m.extractedText = some txt) (hne : txt ≠ "")
    (hqs : qs ≠ [])
    (hgen : ∀ j, j < qs.length → ∀ k, k < qs.length →
      generated j = generated k → j = k)
    (hdisj : ∀ k, k < qs.length → ∀ q ∈ qs, generated k ≠ q.id)
    (hgenne : ∀ k, k < qs.length → generated k ≠ "")
    (hsup : ((qs.map (fun q => q.id)).filter (fun i => i ≠ "")).Nodup) :
    loadQuestions D (some m) (Except.ok qs) generated s =
      { s with questions := assignIds generated 0 qs,
               quizState := QuizState.taking, timeLeft := D, error := none }
    ∧ (((loadQuestions D (some m) (Except.ok qs) generated
          s).questions.map (fun q => q.id)).Nodup)
    ∧ (∀ x ∈ (loadQuestions D (some m) (Except.ok qs) generated
          s).questions.map (fun q => q.id), x ≠ "") := by
  have hload := loadQuestions_success D generated m txt qs s hm hne hqs
  have hnodup := assignIds_nodup generated qs 0
    (fun j hj1 hj2 k hk1 hk2 heq =>
      hgen j (by omega) k (by omega) heq)
    (fun k hk1 hk2 q2 hq2 => hdisj k (by omega) q2 hq2)
    (fun k hk1 hk2 => hgenne k (by omega))
    hsup
  refine ⟨hload, ?_, ?_⟩
  · rw [hload]
    exact hnodup.1
  · rw [hload]
    exact hnodup.2

/-- A concrete question whose gateway-supplied id is missing. -/
def blankIdQuestion : QuizQuestion :=
  { id := "", questionText := "t2", qtype := QuestionType.mcq,
    correctAnswer := some "y" }

theorem loadQuestions_success_amended_witness :
    loadQuestions 300
        (some { id := "c1", title := "m", extractedText := some "text" })
        (Except.ok [parisQuestion, blankIdQuestion])
        (fun k => if k = 0 then "g0" else "g1")
        { questions := [], userAnswers := [], timeLeft := 300,
          quizState := QuizState.loading, score := 0 } =
      { questions := assignIds (fun k => if k = 0 then "g0" else "g1") 0
          [parisQuestion, blankIdQuestion],
        userAnswers := [], timeLeft := 300, quizState := QuizState.taking,
        score := 0, error := none }
    ∧ (((loadQuestions 300
          (some { id := "c1", title := "m", extractedText := some "text" })
          (Except.ok [parisQuestion, blankIdQuestion])
          (fun k => if k = 0 then "g0" else "g1")
          { questions := [], userAnswers := [], timeLeft := 300,
            quizState := QuizState.loading, score := 0 }).questions.map
              (fun q => q.id)).Nodup)
    ∧ (∀ x ∈ (loadQuestions 300
          (some { id := "c1", title := "m", extractedText := some "text" })
          (Except.ok [parisQuestion, blankIdQuestion])
          (fun k => if k = 0 then "g0" else "g1")
          { questions := [], userAnswers := [], timeLeft := 300,
            quizState := QuizState.loading, score := 0 }).questions.map
              (fun q => q.id), x ≠ "") :=
  loadQuestions_success_amended 300 (fun k => if k = 0 then "g0" else "g1")
    { id := "c1", title := "m", extractedText := some "text" } "text"
    [parisQuestion, blankIdQuestion]
    { questions := [], userAnswers := [], timeLeft := 300,
      quizState := QuizState.loading, score := 0 }
    rfl (by decide) (by decide) (by decide) (by decide) (by decide)
    (by decide)

theorem scoreStep_eq (acc : Nat × Nat) (q : Quiz) :
    scoreStep acc q =
      if countedP q then (acc.1 + q.score.getD 0, acc.2 + q.questions.length)
      else acc := by
  unfold scoreStep countedP
  cases hsc : q.score with
  | none => simp
  | some sc =>
    by_cases hl : 0 < q.questions.length
    · simp [hl]
    · simp [hl]

theorem foldl_scoreStep (l : List Quiz) :
    ∀ a b : Nat, l.foldl scoreStep (a, b) = (a + sumScores l, b + sumCounts l) := by
  induction l with
  | nil =>
    intro a b
    simp [sumScores, sumCounts]
  | cons q rest ih =>
    intro a b
    rw [List.foldl_cons, scoreStep_eq]
    by_cases hq : countedP q
    · rw [if_pos hq, ih]
      unfold sumScores sumCounts
      rw [List.filter_cons, if_pos hq]
      simp only [List.map_cons, List.sum_cons, Prod.mk.injEq]
      omega
    · rw [if_neg hq, ih]
      unfold sumScores sumCounts
      rw [List.filter_cons, if_neg hq]

theorem sumScores_append (l1 l2 : List Quiz) :
    sumScores (l1 ++ l2) = sumScores l1 + sumScores l2 := by
  simp [sumScores, List.filter_append]

theorem sumCounts_append (l1 l2 : List Quiz) :
    sumCounts (l1 ++ l2) = sumCounts l1 + sumCounts l2 := by
  simp [sumCounts, List.filter_append]

theorem foldl_materialStep (store : QuizStore) (ms : List StudyMaterial) :
    ∀ a b : Nat, ms.foldl (materialStep store) (a, b) =
      (a + sumScores (quizzesOf ms store), b + sumCounts (quizzesOf ms store)) := by
  induction ms with
  | nil =>
    intro a b
    simp [quizzesOf, sumScores, sumCounts]
  | cons m rest ih =>
    intro a b
    rw [List.foldl_cons]
    have hstep : materialStep store (a, b) m =
        (a + sumScores (getQuizzesForContent m.id store),
         b + sumCounts (getQuizzesForContent m.id store)) := by
      unfold materialStep
      exact foldl_scoreStep _ a b
    rw [hstep, ih]
    have hq : quizzesOf (m :: rest) store =
        getQuizzesForContent m.id store ++ quizzesOf rest store := by
      simp [quizzesOf]
    rw [hq, sumScores_append, sumCounts_append]
    simp only [Prod.mk.injEq]
    omega

theorem getAverageQuizScore_eq_spec (ms : List StudyMaterial)
    (store : QuizStore) :
    getAverageQuizScore ms store = averageScoreSpec ms store := by
  unfold getAverageQuizScore averageScoreSpec
  rw [foldl_materialStep store ms 0 0]
  simp only [Nat.zero_add]

/-- A stored quiz scoring 3 out of 5 questions. -/
def exampleQuizA : Quiz :=
  { id := "qa", contentId := "cA",
    questions := List.replicate 5 parisQuestion, score := some 3,
    timestamp := "t", durationSeconds := 60 }

/-- A stored quiz scoring 4 out of 4 questions. -/
def exampleQuizB : Quiz :=
  { id := "qb", contentId := "cB",
    questions := List.replicate 4 parisQuestion, score := some 4,
    timestamp := "t", durationSeconds := 60 }

/-- Two materials whose quiz history is the two example quizzes. -/
def exampleMaterials : List StudyMaterial :=
  [{ id := "cA", title := "A" }, { id := "cB", title := "B" }]

/-- The store holding one quiz per example material. -/
def exampleStore : QuizStore :=
  [("cA", exampleQuizA), ("cB", exampleQuizB)]

/-- Claim C9: the dashboard aggregate equals the sum of scores over all
stored quizzes with numeric score and at least one question, divided by the
sum of their question counts, as a percentage rounded to one decimal place;
in particular quizzes scoring 3 of 5 and 4 of 4 across two materials yield
7 of 9, displayed as 77.8 percent (389/5 exactly). -/
theorem dashboard_average_score (ms : List StudyMaterial)
    (store : QuizStore) :
    getAverageQuizScore ms store = averageScoreSpec ms store
    ∧ getAverageQuizScore exampleMaterials exampleStore = 389 / 5 := by
  refine ⟨getAverageQuizScore_eq_spec ms store, ?_⟩
  rw [getAverageQuizScore_eq_spec]
  unfold averageScoreSpec
  have h1 : sumCounts (quizzesOf exampleMaterials exampleStore) = 9 := by
    decide
  have h2 : sumScores (quizzesOf exampleMaterials exampleStore) = 7 := by
    decide
  rw [h1, h2]
  norm_num [roundTo1, Int.floor_eq_iff]

theorem countedP_false_of (q : Quiz)
    (h : q.score = none ∨ q.questions = []) : countedP q = false := by
  rcases h with h | h <;> simp [countedP, h]

theorem mem_quizzesOf (q : Quiz) (ms : List StudyMaterial)
    (store : QuizStore) :
    q ∈ quizzesOf ms store ↔
      ∃ m ∈ ms, q ∈ getQuizzesForContent m.id store := by
  simp [quizzesOf, List.mem_flatten]

theorem getQuizzesForContent_append (x cid : String) (store : QuizStore)
    (q0 : Quiz) :
    getQuizzesForContent x (store ++ [(cid, q0)]) =
      getQuizzesForContent x store ++ (if cid = x then [q0] else []) := by
  unfold getQuizzesForContent
  rw [List.filter_append]
  by_cases h : cid = x
  · simp [h]
  · simp [h]

theorem quizzesOf_append_counted_free (ms : List StudyMaterial)
    (store : QuizStore) (cid : String) (q0 : Quiz)
    (hq : countedP q0 = false) :
    sumScores (quizzesOf ms (store ++ [(cid, q0)])) =
      sumScores (quizzesOf ms store)
    ∧ sumCounts (quizzesOf ms (store ++ [(cid, q0)])) =
      sumCounts (quizzesOf ms store) := by
  have hextra : ∀ x : String,
      sumScores (if cid = x then [q0] else []) = 0
      ∧ sumCounts (if cid = x then [q0] else []) = 0 := by
    intro x
    by_cases h : cid = x
    · simp [h, sumScores, sumCounts, List.filter_cons, hq]
    · simp [h, sumScores, sumCounts]
  induction ms with
  | nil => simp [quizzesOf, sumScores, sumCounts]
  | cons m rest ih =>
    have hsplit1 : quizzesOf (m :: rest) (store ++ [(cid, q0)]) =
        getQuizzesForContent m.id (store ++ [(cid, q0)]) ++
          quizzesOf rest (store ++ [(cid, q0)]) := by
      simp [quizzesOf]
    have hsplit2 : quizzesOf (m :: rest) store =
        getQuizzesForContent m.id store ++ quizzesOf rest store := by
      simp [quizzesOf]
    rw [hsplit1, hsplit2, sumScores_append, sumScores_append,
      sumCounts_append, sumCounts_append,
      getQuizzesForContent_append m.id cid store q0,
      sumScores_append, sumCounts_append, (hextra m.id).1, (hextra m.id).2,
      ih.1, ih.2]
    omega

/-- Claim C10: the score-percentage computations are guarded against empty
question sets — the results view shows zero when the session has no
questions, the dashboard average is unchanged by a stored quiz with zero
questions, and it is zero when no stored quiz has a numeric score and a
non-empty question list. -/
theorem score_percentage_guard (s : QuizSession)
    (hs : s.questions = [])
    (ms : List StudyMaterial) (store : QuizStore) (cid : String) (q0 : Quiz)
    (hq : q0.questions = [])
    (ms2 : List StudyMaterial) (store2 : QuizStore)
    (hnone : ∀ m ∈ ms2, ∀ q ∈ getQuizzesForContent m.id store2,
      q.score = none ∨ q.questions = []) :
    resultsPercentage s = 0
    ∧ getAverageQuizScore ms (store ++ [(cid, q0)]) =
        getAverageQuizScore ms store
    ∧ getAverageQuizScore ms2 store2 = 0 := by
  refine ⟨?_, ?_, ?_⟩
  · simp [resultsPercentage, hs]
  · rw [getAverageQuizScore_eq_spec, getAverageQuizScore_eq_spec]
    have hcf : countedP q0 = false := countedP_false_of q0 (Or.inr hq)
    obtain ⟨h1, h2⟩ := quizzesOf_append_counted_free ms store cid q0 hcf
    unfold averageScoreSpec
    rw [h1, h2]
  · rw [getAverageQuizScore_eq_spec]
    have hfilter : (quizzesOf ms2 store2).filter countedP = [] := by
      rw [List.filter_eq_nil_iff]
      intro q hqmem
      obtain ⟨m, hm, hqm⟩ := (mem_quizzesOf q ms2 store2).mp hqmem
      simp [countedP_false_of q (hnone m hm q hqm)]
    have hzero : sumCounts (quizzesOf ms2 store2) = 0 := by
      unfold sumCounts
      rw [hfilter]
      rfl
    unfold averageScoreSpec
    rw [hzero]
    simp

/-- A stored quiz with a numeric score but an empty question list, which
the dashboard must skip. -/
def zeroQuestionQuiz : Quiz :=
  { id := "q0", contentId := "cA", questions := [], score := some 2,
    timestamp := "t", durationSeconds := 0 }

theorem score_percentage_guard_witness :
    resultsPercentage
        { questions := [], userAnswers := [], timeLeft := 0,
          quizState := QuizState.results, score := 0 } = 0
    ∧ getAverageQuizScore exampleMaterials
        (exampleStore ++ [("cA", zeroQuestionQuiz)]) =
        getAverageQuizScore exampleMaterials exampleStore
    ∧ getAverageQuizScore exampleMaterials [] = 0 := by
  have h := score_percentage_guard
    { questions := [], userAnswers := [], timeLeft := 0,
      quizState := QuizState.results, score := 0 } rfl
    exampleMaterials exampleStore "cA" zeroQuestionQuiz rfl
    exampleMaterials [] (by decide)
  exact h

end AmeenaAI
